import Mathlib

/-!
# Verification of the maplibre-gl-nightlayer illumination engine

Shallow embedding of `src/main.ts` of the `maplibre-gl-nightlayer`
repository: the subsolar-point calculator (`getSubsolarPoint`), the
fragment-shader illumination model, the geometry cache of
`NightLayer.#updateModel`, the repaint-timer logic of
`NightLayer.#setIntervalTimer` / `setDate`, and the color normalization
of `setColor` / `setDaytimeColor`.

JavaScript `number` arithmetic is idealized as real arithmetic (`ℝ`);
timestamps (millisecond time values of JS `Date`) are embedded as `ℤ`;
GLSL `pow` is modelled by `Real.rpow`.  The broken-down UTC accessors of
JS `Date` follow the ECMAScript specification (`DayFromYear`,
`TimeFromYear`, `HourFromTime`, ...).
-/

open Real

/-! ## Shared numeric helpers (from `src/main.ts` lines 5-11 and JS `Math`) -/

/-- `radians` from `src/main.ts`: `(deg * Math.PI) / 180`. -/
noncomputable def radians (deg : ℝ) : ℝ := deg * π / 180

/-- `degrees` from `src/main.ts`: `(rad / Math.PI) * 180`. -/
noncomputable def degrees (rad : ℝ) : ℝ := rad / π * 180

/-- JS `Math.atan2(y, x)` (signed-zero distinctions do not exist in `ℝ`). -/
noncomputable def atan2 (y x : ℝ) : ℝ :=
  if 0 < x then arctan (y / x)
  else if x < 0 ∧ 0 ≤ y then arctan (y / x) + π
  else if x < 0 then arctan (y / x) - π
  else if 0 < y then π / 2
  else if y < 0 then -(π / 2)
  else 0

/-- JS `Math.trunc`: rounds toward zero. -/
noncomputable def jstrunc (x : ℝ) : ℝ := if 0 ≤ x then (⌊x⌋ : ℝ) else (⌈x⌉ : ℝ)

/-- GLSL `clamp(x, lo, hi) = min(max(x, lo), hi)`. -/
def glclamp (x lo hi : ℝ) : ℝ := min (max x lo) hi

/-! ## ECMAScript UTC time model

`getSubsolarPoint` reads its input through the JS `Date` accessors
`getTime`, `getUTCFullYear`, `getUTCHours`, `getUTCMinutes`,
`getUTCSeconds`, `getUTCMilliseconds`, and calls `Date.UTC(year, 0, 0)`.
A time value is embedded as `t : ℤ`, milliseconds since the Unix epoch.
The accessors below are the ECMAScript definitions. -/

/-- ECMAScript `DayFromYear(y)`: day number of January 1 of year `y`. -/
def dayFromYear (y : ℤ) : ℤ :=
  365 * (y - 1970) + (y - 1969).ediv 4 - (y - 1901).ediv 100 + (y - 1601).ediv 400

/-- ECMAScript `TimeFromYear(y)`: time value of the first instant of year `y`. -/
def timeFromYear (y : ℤ) : ℤ := 86400000 * dayFromYear y

/-- `y` is the value of `getUTCFullYear()` for the time value `t`
(ECMAScript `YearFromTime(t) = y`). -/
def isUTCYear (t y : ℤ) : Prop := timeFromYear y ≤ t ∧ t < timeFromYear (y + 1)

instance (t y : ℤ) : Decidable (isUTCYear t y) := by unfold isUTCYear; infer_instance

/-- `Date.UTC(y, 0, 0)`: month 0, day-of-month 0, i.e. one day before the
first instant of year `y` (ECMAScript `MakeDay` uses `date - 1`). -/
def dateUTCYear00 (y : ℤ) : ℤ := timeFromYear y - 86400000

/-- `getUTCHours()` (ECMAScript `HourFromTime`). -/
def getUTCHours (t : ℤ) : ℤ := (t.ediv 3600000).emod 24

/-- `getUTCMinutes()` (ECMAScript `MinFromTime`). -/
def getUTCMinutes (t : ℤ) : ℤ := (t.ediv 60000).emod 60

/-- `getUTCSeconds()` (ECMAScript `SecFromTime`). -/
def getUTCSeconds (t : ℤ) : ℤ := (t.ediv 1000).emod 60

/-- `getUTCMilliseconds()` (ECMAScript `msFromTime`). -/
def getUTCMilliseconds (t : ℤ) : ℤ := t.emod 1000

/-! ## `getSubsolarPoint` (`src/main.ts` lines 23-46)

The function is decomposed into one definition per local constant of the
source (`D`, `n`, `e`, `E`, `A`, `B`, `C`, `EOT`, `UTC`, `lng`, `lat`).
The source computes the year as `date.getUTCFullYear()`; the embedding
takes the year `y` as a parameter, constrained by `isUTCYear t y` in the
theorems. -/

/-- `const D = (date.getTime() - Date.UTC(date.getUTCFullYear(), 0, 0)) / 86400000` -/
noncomputable def subsolarD (t y : ℤ) : ℝ := ((t : ℝ) - (dateUTCYear00 y : ℝ)) / 86400000

/-- `const n = (2 * Math.PI) / 365.24` -/
noncomputable def meanMotion : ℝ := 2 * π / 365.24

/-- `const e = radians(23.44)` — Earth's axial tilt. -/
noncomputable def axialTilt : ℝ := radians 23.44

/-- `const E = 0.0167` — Earth's orbital eccentricity. -/
def eccentricity : ℝ := 0.0167

/-- `const A = (D + 9) * n` -/
noncomputable def subsolarA (t y : ℤ) : ℝ := (subsolarD t y + 9) * meanMotion

/-- `const B = A + 2 * E * Math.sin((D - 3) * n)` -/
noncomputable def subsolarB (t y : ℤ) : ℝ :=
  subsolarA t y + 2 * eccentricity * Real.sin ((subsolarD t y - 3) * meanMotion)

/-- `const C = (A - Math.atan2(Math.sin(B), Math.cos(B) * Math.cos(e))) / Math.PI` -/
noncomputable def subsolarC (t y : ℤ) : ℝ :=
  (subsolarA t y -
    atan2 (Real.sin (subsolarB t y)) (Real.cos (subsolarB t y) * Real.cos axialTilt)) / π

/-- `const EOT = 720 * (C - Math.trunc(C + 0.5))` -/
noncomputable def subsolarEOT (t y : ℤ) : ℝ :=
  720 * (subsolarC t y - jstrunc (subsolarC t y + 0.5))

/-- `const UTC = getUTCHours() + getUTCMinutes()/60 + getUTCSeconds()/3600 + getUTCMilliseconds()/3600000` -/
noncomputable def utcHoursFrac (t : ℤ) : ℝ :=
  (getUTCHours t : ℝ) + (getUTCMinutes t : ℝ) / 60 + (getUTCSeconds t : ℝ) / 3600 +
    (getUTCMilliseconds t : ℝ) / 3600000

/-- `getSubsolarPoint` (`src/main.ts` lines 23-46): returns `(lng, lat)`,
`lng = -15 * (UTC - 12 + EOT / 60)`,
`lat = degrees(Math.asin(Math.sin(-e) * Math.cos(B)))`. -/
noncomputable def getSubsolarPoint (t y : ℤ) : ℝ × ℝ :=
  (-15 * (utcHoursFrac t - 12 + subsolarEOT t y / 60),
    degrees (Real.arcsin (Real.sin (-axialTilt) * Real.cos (subsolarB t y))))

/-- Modelled from the spec (the spec's own wording, for refinement
comparison with `subsolarD`): "day-of-year fraction `D` = (elapsed time
since the start of the input's UTC year) / (1 day)". -/
noncomputable def specDayFraction (t y : ℤ) : ℝ := ((t : ℝ) - (timeFromYear y : ℝ)) / 86400000

/-! ## Repaint-timer model (`src/main.ts` lines 148-157 and 179-183)

State relevant to `#setIntervalTimer` / `setDate`: the `#date` field
(`none` = live clock), the `#updateInterval` field, and whether the
periodic repaint interval timer is currently armed
(`#updateIntervalTimer !== undefined`).  `setInterval` ids are abstracted
to the Boolean "armed"; `triggerRepaint` has no effect on this state. -/

structure TimerState where
  date : Option ℤ
  updateInterval : ℚ
  timerArmed : Bool
  deriving DecidableEq, Repr

/-- `NightLayer.#setIntervalTimer`: always clears any existing timer, then
arms a new one iff `#date === null && #updateInterval > 0`. -/
def setIntervalTimer (st : TimerState) : TimerState :=
  { st with timerArmed := if st.date = none ∧ 0 < st.updateInterval then true else false }

/-- `NightLayer.setDate`: stores the date, then calls `#setIntervalTimer()`
(the trailing `triggerRepaint` does not affect this state). -/
def setDate (d : Option ℤ) (st : TimerState) : TimerState :=
  setIntervalTimer { st with date := d }

/-! ## Color normalization (`src/main.ts` lines 214-217 and 231-234)

`this.#color = [...(color.slice(0, 3) as Color3), color?.[3] ?? 255]`.
A JS color array is embedded as `List ℚ`; `slice(0, 3)` is `take 3` and
`color?.[3] ?? 255` is `getD 3 255`. -/

/-- The stored value of `NightLayer.setColor`. -/
def setColor (color : List ℚ) : List ℚ := color.take 3 ++ [color.getD 3 255]

/-- The stored value of `NightLayer.setDaytimeColor` (same normalization
expression as `setColor`). -/
def setDaytimeColor (color : List ℚ) : List ℚ := color.take 3 ++ [color.getD 3 255]

/-! ## Illumination model (fragment shader `main`, `src/main.ts` lines 358-384)

The shader's per-fragment brightness as a scalar function of the observer
and subsolar positions (both `(lng, lat)` in degrees) and the uniforms
`u_twilight_steps` and `u_twilight_attenuation`.  GLSL `pow` is modelled
by `Real.rpow`, GLSL `ceil` by `Int.ceil`, GLSL `clamp` by `glclamp`. -/

/-- Solar altitude at the observer (shader lines 361-365):
`degrees(asin(sin(obs.y)*sin(sub.y) + cos(obs.y)*cos(sub.y)*cos(sub.x-obs.x)))`
with both points converted to radians first. -/
noncomputable def solarAltitude (obs sun : ℝ × ℝ) : ℝ :=
  degrees (Real.arcsin
    (Real.sin (radians obs.2) * Real.sin (radians sun.2) +
      Real.cos (radians obs.2) * Real.cos (radians sun.2) *
        Real.cos (radians sun.1 - radians obs.1)))

/-- The shader's brightness (lines 367-382):
`twilightLevel = -altitude / 6.0`; if `steps > 0` then
`twilightLevel = ceil(clamp(twilightLevel, 0, steps))`, forced to `0`
when `altitude > -0.8333333`; finally
`brightness = clamp(pow(clamp(1 - att, 0, 1), twilightLevel), 0, 1)`. -/
noncomputable def illuminate (obs sun : ℝ × ℝ) (steps att : ℝ) : ℝ :=
  let altitude := solarAltitude obs sun
  let twilightLevel : ℝ :=
    if 0 < steps then
      if -0.8333333 < altitude then 0
      else (⌈glclamp (-altitude / 6) 0 steps⌉ : ℝ)
    else -altitude / 6
  glclamp (glclamp (1 - att) 0 1 ^ twilightLevel) 0 1

/-! ## Geometry model and cache (`NightLayer.#updateModel`, `src/main.ts` lines 405-451)

The state that `#updateModel` reads and writes: the cached signature
`#modelSignature : Option String`, the contents of the vertex and index
GPU buffers, and the stored index count `#indices`.  Vertex buffers are
embedded as lists of 2D positions, index buffers as lists of naturals. -/

structure MeshBuffers where
  vertices : List (ℝ × ℝ)
  indices : List ℕ

/-- Modelled from the spec: `MercatorCoordinate.fromLngLat(lngLat).x` of
the external maplibre-gl library — "the projected x-coordinate ... in a
normalized [0,1]-per-world-wrap coordinate" (§4.3). -/
noncomputable def mercatorX (lng : ℝ) : ℝ := (180 + lng) / 360

/-- The FLAT-mode mesh built by `#updateModel` (lines 432-438): a single
quad `[xmin, xmax] × [0, 1]` as two triangles with six (duplicated)
vertices and indices `0..5`. -/
noncomputable def flatQuadMesh (xmin xmax : ℤ) : MeshBuffers where
  vertices := [((xmin : ℝ), 0), ((xmax : ℝ), 0), ((xmin : ℝ), 1),
    ((xmin : ℝ), 1), ((xmax : ℝ), 0), ((xmax : ℝ), 1)]
  indices := [0, 1, 2, 3, 4, 5]

/-- Modelled from the spec: `createTileMesh` of the external maplibre-gl
library with granularity 100, both poles extended, no borders, `16bit`
indices (lines 420-430) — "a tessellated spherical shell mesh with
north/south pole caps included, parameterized by a granularity constant
(reference granularity: 100 subdivisions)" (§4.3).  Modelled as a
101-column grid with 103 rows (101 interior rows plus the two pole rows),
positions normalized from 16-bit tile coordinates by `x / 8192`. -/
noncomputable def globeTileMesh : MeshBuffers where
  vertices := (List.range (101 * 103)).map fun k =>
    (((k % 101 : ℕ) : ℝ) * 81.92 / 8192, (((k / 101 : ℕ) : ℝ) * 81.92 - 81.92) / 8192)
  indices := List.range (6 * 100 * 102)

structure LayerState where
  modelSignature : Option String
  vboData : List (ℝ × ℝ)
  iboData : List ℕ
  indicesCount : Option ℕ

/-- The candidate signature computed at lines 410-414:
`'globe'` when the map's projection is named `'globe'`, otherwise
`[Math.floor(mercX(west)), Math.ceil(mercX(east))].join(':')`. -/
noncomputable def candidateSignature (projectionName : Option String) (west east : ℝ) :
    String :=
  if projectionName = some "globe" then "globe"
  else toString ⌊mercatorX west⌋ ++ ":" ++ toString ⌈mercatorX east⌉

/-- `NightLayer.#updateModel` (lines 405-451), assuming the layer is
attached (`#map`, `#vbo`, `#ibo` present, so the early returns are not
taken): if the candidate signature equals the cached one, return with the
state untouched; otherwise rebuild the mesh for the current mode and
store the new buffers, index count and signature. -/
noncomputable def updateModel (projectionName : Option String) (west east : ℝ)
    (st : LayerState) : LayerState :=
  if some (candidateSignature projectionName west east) = st.modelSignature then st
  else
    let meshBuffers : MeshBuffers :=
      if projectionName = some "globe" then globeTileMesh
      else flatQuadMesh ⌊mercatorX west⌋ ⌈mercatorX east⌉
    { modelSignature := some (candidateSignature projectionName west east),
      vboData := meshBuffers.vertices,
      iboData := meshBuffers.indices,
      indicesCount := some meshBuffers.indices.length }

/-- The stored signature describes the stored buffers: `"globe"` goes with
the globe tile mesh, a flat signature `"xmin:xmax"` with the corresponding
flat quad (signature and buffers are updated together). -/
def SigMatchesBuffers (st : LayerState) : Prop :=
  ∀ s, st.modelSignature = some s →
    (s = "globe" ∧ st.vboData = globeTileMesh.vertices ∧
      st.iboData = globeTileMesh.indices ∧
      st.indicesCount = some globeTileMesh.indices.length) ∨
    (∃ a b : ℤ, s = toString a ++ ":" ++ toString b ∧
      st.vboData = (flatQuadMesh a b).vertices ∧
      st.iboData = (flatQuadMesh a b).indices ∧
      st.indicesCount = some (flatQuadMesh a b).indices.length)

/-- A FLAT-mode signature always contains the separator `':'`, so it can
never equal the GLOBE constant `"globe"`. -/
lemma append_colon_ne_globe (a b : String) : a ++ ":" ++ b ≠ "globe" := by
  intro h
  have hd : (a ++ ":" ++ b).data = "globe".data := congrArg String.data h
  rw [String.data_append, String.data_append] at hd
  have hm : ':' ∈ a.data ++ ":".data ++ b.data :=
    List.mem_append.mpr (Or.inl (List.mem_append.mpr (Or.inr (by decide))))
  rw [hd] at hm
  exact absurd hm (by decide)

/-! # Claims -/

/-! ### Range facts about the embedded `Math` functions -/

/-- `Math.atan2` always returns a value in `(-π, π]`. -/
lemma atan2_range (y x : ℝ) : -π < atan2 y x ∧ atan2 y x ≤ π := by
  have hpi := Real.pi_pos
  have ha1 := Real.arctan_lt_pi_div_two (y / x)
  have ha2 := Real.neg_pi_div_two_lt_arctan (y / x)
  unfold atan2
  split_ifs with h1 h2 h3 h4 h5
  · exact ⟨by linarith, by linarith⟩
  · obtain ⟨hx, hy⟩ := h2
    have hyx : y / x ≤ 0 := div_nonpos_of_nonneg_of_nonpos hy hx.le
    have h0 : arctan (y / x) ≤ arctan 0 := arctan_strictMono.monotone hyx
    rw [Real.arctan_zero] at h0
    exact ⟨by linarith, by linarith⟩
  · have hy : y < 0 := by
      rcases lt_or_le y 0 with hy | hy
      · exact hy
      · exact absurd ⟨h3, hy⟩ h2
    have hyx : 0 < y / x := div_pos_of_neg_of_neg hy h3
    have h0 : arctan 0 < arctan (y / x) := arctan_strictMono hyx
    rw [Real.arctan_zero] at h0
    exact ⟨by linarith, by linarith⟩
  · exact ⟨by linarith, by linarith⟩
  · exact ⟨by linarith, by linarith⟩
  · exact ⟨by linarith, by linarith⟩

/-- The UTC hour fraction read from the `Date` accessors lies in `[0, 24)`. -/
lemma utcHoursFrac_bounds (t : ℤ) : 0 ≤ utcHoursFrac t ∧ utcHoursFrac t < 24 := by
  have hh1 : (0 : ℤ) ≤ getUTCHours t := Int.emod_nonneg _ (by norm_num)
  have hh2 : getUTCHours t < 24 := Int.emod_lt_of_pos _ (by norm_num)
  have hm1 : (0 : ℤ) ≤ getUTCMinutes t := Int.emod_nonneg _ (by norm_num)
  have hm2 : getUTCMinutes t < 60 := Int.emod_lt_of_pos _ (by norm_num)
  have hs1 : (0 : ℤ) ≤ getUTCSeconds t := Int.emod_nonneg _ (by norm_num)
  have hs2 : getUTCSeconds t < 60 := Int.emod_lt_of_pos _ (by norm_num)
  have hx1 : (0 : ℤ) ≤ getUTCMilliseconds t := Int.emod_nonneg _ (by norm_num)
  have hx2 : getUTCMilliseconds t < 1000 := Int.emod_lt_of_pos _ (by norm_num)
  have hh1' : (0 : ℝ) ≤ (getUTCHours t : ℝ) := by exact_mod_cast hh1
  have hh2' : (getUTCHours t : ℝ) < 24 := by exact_mod_cast hh2
  have hm1' : (0 : ℝ) ≤ (getUTCMinutes t : ℝ) := by exact_mod_cast hm1
  have hm2' : (getUTCMinutes t : ℝ) ≤ 59 := by
    have : getUTCMinutes t ≤ 59 := by omega
    exact_mod_cast this
  have hs1' : (0 : ℝ) ≤ (getUTCSeconds t : ℝ) := by exact_mod_cast hs1
  have hs2' : (getUTCSeconds t : ℝ) ≤ 59 := by
    have : getUTCSeconds t ≤ 59 := by omega
    exact_mod_cast this
  have hx1' : (0 : ℝ) ≤ (getUTCMilliseconds t : ℝ) := by exact_mod_cast hx1
  have hx2' : (getUTCMilliseconds t : ℝ) ≤ 999 := by
    have : getUTCMilliseconds t ≤ 999 := by omega
    exact_mod_cast this
  have hh2'' : (getUTCHours t : ℝ) ≤ 23 := by
    have : getUTCHours t ≤ 23 := by omega
    exact_mod_cast this
  unfold utcHoursFrac
  constructor <;> [positivity; linarith]

/-- On any real time value, the code's day fraction `D` is at least `1`
(the elapsed time since `Date.UTC(year, 0, 0)` is at least one day). -/
lemma one_le_subsolarD (t y : ℤ) (h : isUTCYear t y) : 1 ≤ subsolarD t y := by
  have h1 : (timeFromYear y : ℝ) ≤ (t : ℝ) := by exact_mod_cast h.1
  unfold subsolarD dateUTCYear00
  rw [le_div_iff₀ (by norm_num : (0 : ℝ) < 86400000)]
  push_cast
  linarith

/-- `A = (D + 9) * n` is positive on any real time value. -/
lemma subsolarA_pos (t y : ℤ) (h : isUTCYear t y) : 0 < subsolarA t y := by
  have hD := one_le_subsolarD t y h
  have hn : 0 < meanMotion := by unfold meanMotion; positivity
  exact mul_pos (by linarith) hn

/-- `C` stays above `-1`: the angle `A` is positive and `atan2` is at most `π`. -/
lemma neg_one_lt_subsolarC (t y : ℤ) (h : isUTCYear t y) : -1 < subsolarC t y := by
  have hA := subsolarA_pos t y h
  have hφ := (atan2_range (Real.sin (subsolarB t y))
    (Real.cos (subsolarB t y) * Real.cos axialTilt)).2
  unfold subsolarC
  rw [lt_div_iff₀ Real.pi_pos]
  linarith

/-- The equation-of-time correction stays within `(-720, 360)` minutes. -/
lemma subsolarEOT_bounds (t y : ℤ) (h : isUTCYear t y) :
    -720 < subsolarEOT t y ∧ subsolarEOT t y < 360 := by
  have hC := neg_one_lt_subsolarC t y h
  unfold subsolarEOT jstrunc
  by_cases hx : (0 : ℝ) ≤ subsolarC t y + 0.5
  · rw [if_pos hx]
    have h1 : (⌊subsolarC t y + 0.5⌋ : ℝ) ≤ subsolarC t y + 0.5 := Int.floor_le _
    have h2 : subsolarC t y + 0.5 - 1 < (⌊subsolarC t y + 0.5⌋ : ℝ) :=
      Int.sub_one_lt_floor _
    constructor <;> linarith
  · rw [if_neg hx]
    push_neg at hx
    have hceil : ⌈subsolarC t y + 0.5⌉ = 0 :=
      Int.ceil_eq_zero_iff.mpr (Set.mem_Ioc.mpr ⟨by linarith, by linarith⟩)
    rw [hceil]
    norm_num
    constructor <;> linarith

/-! ### Helper evaluations of `solarAltitude` at concrete points -/

/-- With observer and sun both at `(0°, 0°)` the sun is at the zenith. -/
lemma solarAltitude_zenith : solarAltitude (0, 0) (0, 0) = 90 := by
  have hπ := Real.pi_ne_zero
  simp only [solarAltitude, radians, degrees]
  norm_num [Real.arcsin_one]
  field_simp
  ring

/-- With the sun on the horizon due east (`sun = (90°, 0°)`, observer at
`(0°, 0°)`) the altitude is `0`. -/
lemma solarAltitude_horizon : solarAltitude (0, 0) (90, 0) = 0 := by
  have h90 : (90 : ℝ) * π / 180 = π / 2 := by ring
  simp only [solarAltitude, radians, degrees]
  norm_num [h90, Real.cos_pi_div_two, Real.arcsin_zero]

/-! ## C2 — the day-of-year fraction is off by one from the spec's wording -/

/-- C2 counterexample: at the first instant of UTC year 1970 (time value
`t = 0`), the code's day fraction `D` is `1`, not `0`: the claim "`D` equals
elapsed time since the start of the year divided by one day, in particular
`D = 0` at the first instant of the year" fails at this input. -/
theorem subsolarD_ne_spec_at_year_start :
    isUTCYear 0 1970 ∧ specDayFraction 0 1970 = 0 ∧ subsolarD 0 1970 = 1 ∧
      subsolarD 0 1970 ≠ specDayFraction 0 1970 := by
  refine ⟨by decide, ?_, ?_, ?_⟩ <;>
    · simp only [specDayFraction, subsolarD, dateUTCYear00, timeFromYear, dayFromYear]
      norm_num

/-- C2 (amended): in `getSubsolarPoint`, the day-of-year fraction `D`
equals (elapsed time since the start of the input timestamp's UTC year)
divided by one day, **plus one** — the code subtracts `Date.UTC(year, 0, 0)`,
which is one day before the start of the year, so `D = 1` at the first
instant of the year. -/
theorem subsolarD_eq_spec_plus_one (t y : ℤ) :
    subsolarD t y = specDayFraction t y + 1 := by
  simp only [subsolarD, specDayFraction, dateUTCYear00]
  push_cast
  ring

/-! ## C1 — range of the subsolar point -/

/-- C1 counterexample: at `t = 172800000` (1970-01-03T00:00:00Z, so `D = 3`
and the UTC hour fraction is `0`), the returned longitude is **greater
than 180°**: the equation-of-time correction is strictly negative there
(`C < 0` because `atan2(sin B, cos B · cos ε) > B` for this `B ∈ (0, π/2)`),
and the code never normalizes `lng = -15·(UTC - 12 + EOT/60)` into
`(-180, 180]`.  This refutes the claimed longitude range. -/
theorem getSubsolarPoint_lng_gt_180 :
    isUTCYear 172800000 1970 ∧ 180 < (getSubsolarPoint 172800000 1970).1 := by
  have hpi := Real.pi_pos
  -- D = 3 at this timestamp
  have hdate : dateUTCYear00 1970 = -86400000 := by decide
  have hD : subsolarD 172800000 1970 = 3 := by
    rw [subsolarD, hdate]; norm_num
  -- hence B = A = 12 * n = 24π/365.24
  have hA : subsolarA 172800000 1970 = 24 * π / 365.24 := by
    rw [subsolarA, hD, meanMotion]; ring
  have hB : subsolarB 172800000 1970 = 24 * π / 365.24 := by
    rw [subsolarB, hD, hA]
    norm_num
  -- the angle α = 24π/365.24 lies in (0, π/2)
  have hα_pos : 0 < 24 * π / 365.24 := by positivity
  have hα_lt : 24 * π / 365.24 < π / 2 := by
    rw [div_lt_div_iff₀ (by norm_num) (by norm_num)]
    linarith
  have hsinα : 0 < Real.sin (24 * π / 365.24) :=
    Real.sin_pos_of_pos_of_lt_pi hα_pos (by linarith)
  have hcosα : 0 < Real.cos (24 * π / 365.24) :=
    Real.cos_pos_of_mem_Ioo ⟨by linarith, hα_lt⟩
  -- the axial tilt ε = 23.44π/180 lies in (0, π/2), so 0 < cos ε < 1
  have he_eq : axialTilt = 23.44 * π / 180 := rfl
  have he_pos : 0 < axialTilt := by rw [he_eq]; positivity
  have he_lt : axialTilt < π / 2 := by
    rw [he_eq, div_lt_div_iff₀ (by norm_num) (by norm_num)]
    linarith
  have hcos_e_pos : 0 < Real.cos axialTilt :=
    Real.cos_pos_of_mem_Ioo ⟨by linarith, he_lt⟩
  have hcos_e_lt1 : Real.cos axialTilt < 1 := by
    have := Real.cos_lt_cos_of_nonneg_of_le_pi (le_refl 0) (by linarith) he_pos
    rwa [Real.cos_zero] at this
  -- atan2 takes its positive-x branch and exceeds α
  have hx_pos : 0 < Real.cos (24 * π / 365.24) * Real.cos axialTilt :=
    mul_pos hcosα hcos_e_pos
  have hatan2 : atan2 (Real.sin (24 * π / 365.24))
      (Real.cos (24 * π / 365.24) * Real.cos axialTilt) =
      arctan (Real.sin (24 * π / 365.24) /
        (Real.cos (24 * π / 365.24) * Real.cos axialTilt)) := by
    rw [atan2, if_pos hx_pos]
  have hφ_gt : 24 * π / 365.24 < arctan (Real.sin (24 * π / 365.24) /
      (Real.cos (24 * π / 365.24) * Real.cos axialTilt)) := by
    have hden : Real.cos (24 * π / 365.24) * Real.cos axialTilt <
        Real.cos (24 * π / 365.24) := by nlinarith
    have hdiv : Real.sin (24 * π / 365.24) / Real.cos (24 * π / 365.24) <
        Real.sin (24 * π / 365.24) /
          (Real.cos (24 * π / 365.24) * Real.cos axialTilt) :=
      div_lt_div_of_pos_left hsinα hx_pos hden
    have hmono := arctan_strictMono hdiv
    rwa [← Real.tan_eq_sin_div_cos, Real.arctan_tan (by linarith) hα_lt] at hmono
  have hφ_lt : arctan (Real.sin (24 * π / 365.24) /
      (Real.cos (24 * π / 365.24) * Real.cos axialTilt)) < π / 2 :=
    arctan_lt_pi_div_two _
  -- hence C ∈ (-1/2, 0)
  have hC_eq : subsolarC 172800000 1970 =
      (24 * π / 365.24 - arctan (Real.sin (24 * π / 365.24) /
        (Real.cos (24 * π / 365.24) * Real.cos axialTilt))) / π := by
    rw [subsolarC, hB, hA, hatan2]
  have hC_neg : subsolarC 172800000 1970 < 0 := by
    rw [hC_eq]
    exact div_neg_of_neg_of_pos (by linarith) hpi
  have hC_gt : -(1 / 2 : ℝ) < subsolarC 172800000 1970 := by
    rw [hC_eq, lt_div_iff₀ hpi]
    linarith
  -- trunc(C + 0.5) = 0, so EOT = 720 C < 0
  have hEOT : subsolarEOT 172800000 1970 = 720 * subsolarC 172800000 1970 := by
    rw [subsolarEOT, jstrunc, if_pos (by linarith : (0 : ℝ) ≤ subsolarC 172800000 1970 + 0.5),
      Int.floor_eq_zero_iff.mpr (Set.mem_Ico.mpr ⟨by linarith, by linarith⟩)]
    norm_num
  have hEOT_neg : subsolarEOT 172800000 1970 < 0 := by
    rw [hEOT]; linarith
  -- the UTC hour fraction is 0 at midnight
  have hUTCh : getUTCHours 172800000 = 0 := by decide
  have hUTCm : getUTCMinutes 172800000 = 0 := by decide
  have hUTCs : getUTCSeconds 172800000 = 0 := by decide
  have hUTCx : getUTCMilliseconds 172800000 = 0 := by decide
  have hUTC : utcHoursFrac 172800000 = 0 := by
    rw [utcHoursFrac, hUTCh, hUTCm, hUTCs, hUTCx]
    norm_num
  refine ⟨by decide, ?_⟩
  show 180 < -15 * (utcHoursFrac 172800000 - 12 + subsolarEOT 172800000 1970 / 60)
  rw [hUTC]
  linarith

/-- C1 (amended): for every time value the returned latitude is within
`[-23.44°, 23.44°]` (bounded by the axial tilt), but the longitude is
**not** normalized into `(-180, 180]` (see the counterexample); it is only
guaranteed to lie in the crude range `(-360, 360)` that
`lng = -15·(UTC - 12 + EOT/60)` admits with `UTC ∈ [0, 24)` and
`EOT ∈ (-720, 360)`. -/
theorem getSubsolarPoint_bounds (t y : ℤ) (h : isUTCYear t y) :
    -23.44 ≤ (getSubsolarPoint t y).2 ∧ (getSubsolarPoint t y).2 ≤ 23.44 ∧
      -360 < (getSubsolarPoint t y).1 ∧ (getSubsolarPoint t y).1 < 360 := by
  have hpi := Real.pi_pos
  -- latitude: |sin(-ε)·cos B| ≤ sin ε, and arcsin, degrees are monotone
  have he_eq : axialTilt = 23.44 * π / 180 := rfl
  have he_pos : 0 < axialTilt := by rw [he_eq]; positivity
  have he_lt : axialTilt ≤ π / 2 := by
    rw [he_eq, div_le_div_iff₀ (by norm_num) (by norm_num)]
    linarith
  have hsin_e : 0 ≤ Real.sin axialTilt :=
    Real.sin_nonneg_of_nonneg_of_le_pi he_pos.le (by linarith)
  have hprod_le : Real.sin (-axialTilt) * Real.cos (subsolarB t y) ≤
      Real.sin axialTilt := by
    rw [Real.sin_neg]
    nlinarith [Real.neg_one_le_cos (subsolarB t y), Real.cos_le_one (subsolarB t y)]
  have hprod_ge : -Real.sin axialTilt ≤
      Real.sin (-axialTilt) * Real.cos (subsolarB t y) := by
    rw [Real.sin_neg]
    nlinarith [Real.neg_one_le_cos (subsolarB t y), Real.cos_le_one (subsolarB t y)]
  have harcsin_le : Real.arcsin (Real.sin (-axialTilt) * Real.cos (subsolarB t y)) ≤
      axialTilt := by
    have h1 := Real.monotone_arcsin hprod_le
    rwa [Real.arcsin_sin (by linarith) he_lt] at h1
  have harcsin_ge : -axialTilt ≤
      Real.arcsin (Real.sin (-axialTilt) * Real.cos (subsolarB t y)) := by
    have h1 := Real.monotone_arcsin hprod_ge
    rwa [← Real.sin_neg, Real.arcsin_sin (by linarith) (by linarith)] at h1
  have haux : axialTilt * 180 = 23.44 * π := by rw [he_eq]; ring
  have hlat_le : (getSubsolarPoint t y).2 ≤ 23.44 := by
    show Real.arcsin (Real.sin (-axialTilt) * Real.cos (subsolarB t y)) / π * 180 ≤ 23.44
    rw [div_mul_eq_mul_div, div_le_iff₀ hpi]
    linarith
  have hlat_ge : -23.44 ≤ (getSubsolarPoint t y).2 := by
    show -23.44 ≤ Real.arcsin (Real.sin (-axialTilt) * Real.cos (subsolarB t y)) / π * 180
    rw [div_mul_eq_mul_div, le_div_iff₀ hpi]
    linarith
  -- longitude: crude range from the UTC and EOT bounds
  have hU := utcHoursFrac_bounds t
  have hE := subsolarEOT_bounds t y h
  refine ⟨hlat_ge, hlat_le, ?_, ?_⟩
  · show -360 < -15 * (utcHoursFrac t - 12 + subsolarEOT t y / 60)
    linarith [hU.1, hU.2, hE.1, hE.2]
  · show -15 * (utcHoursFrac t - 12 + subsolarEOT t y / 60) < 360
    linarith [hU.1, hU.2, hE.1, hE.2]

/-- C1 witness: the amended bounds hold at the epoch (`t = 0`, year 1970). -/
theorem getSubsolarPoint_bounds_witness :
    isUTCYear 0 1970 ∧
      (-23.44 ≤ (getSubsolarPoint 0 1970).2 ∧ (getSubsolarPoint 0 1970).2 ≤ 23.44 ∧
        -360 < (getSubsolarPoint 0 1970).1 ∧ (getSubsolarPoint 0 1970).1 < 360) :=
  ⟨by decide, getSubsolarPoint_bounds 0 1970 (by decide)⟩

/-- C9 counterexample: for a layer whose `updateInterval` is `0`,
`setDate(null)` does **not** arm the periodic repaint timer (the guard
`#updateInterval > 0` in `#setIntervalTimer` fails), so "after any call to
`setDate(null)` the timer is armed again" is false at this input. -/
theorem setDate_null_not_armed_when_interval_zero :
    (setDate none ⟨some 0, 0, false⟩).timerArmed = false := by decide

/-- C9 (amended): after `setDate(d)` with `d` non-null the periodic repaint
timer is always disarmed; after `setDate(null)` it is armed again **iff**
the configured `updateInterval` is positive. -/
theorem setDate_timer_behavior (st : TimerState) (d : ℤ) :
    (setDate (some d) st).timerArmed = false ∧
      ((setDate none st).timerArmed = true ↔ 0 < st.updateInterval) := by
  constructor
  · simp [setDate, setIntervalTimer]
  · simp [setDate, setIntervalTimer]

/-! ## C10 — color normalization -/

/-- C10: a 3-component color passed to `setColor` or `setDaytimeColor` is
stored as the 4-component array with alpha 255 appended; a 4-component
input is stored with its own alpha; the stored color always has 4
components. -/
theorem setColor_normalizes (r g b a : ℚ) :
    setColor [r, g, b] = [r, g, b, 255] ∧
      setColor [r, g, b, a] = [r, g, b, a] ∧
      setDaytimeColor [r, g, b] = [r, g, b, 255] ∧
      setDaytimeColor [r, g, b, a] = [r, g, b, a] ∧
      (setColor [r, g, b]).length = 4 ∧
      (setColor [r, g, b, a]).length = 4 ∧
      (setDaytimeColor [r, g, b]).length = 4 ∧
      (setDaytimeColor [r, g, b, a]).length = 4 := by
  refine ⟨rfl, rfl, rfl, rfl, rfl, rfl, rfl, rfl⟩

/-! ## C3 — forced full daylight above the twilight boundary -/

/-- C3: in stepped mode (`twilightSteps ≥ 1`), whenever the solar altitude
at the observer is at least `-0.8333°` the shader returns brightness
exactly `1` (the forced-zero twilight correction: the altitude then
exceeds the code's boundary `-0.8333333`, so `twilightLevel` is forced to
`0` and `pow(base, 0) = 1`). -/
theorem illuminate_full_day_above_twilight (obs sun : ℝ × ℝ) (steps att : ℝ)
    (hs : 1 ≤ steps) (ha : -0.8333 ≤ solarAltitude obs sun) :
    illuminate obs sun steps att = 1 := by
  have h1 : (0 : ℝ) < steps := lt_of_lt_of_le one_pos hs
  have h2 : (-0.8333333 : ℝ) < solarAltitude obs sun :=
    lt_of_lt_of_le (by norm_num) ha
  simp only [illuminate, if_pos h1, if_pos h2, Real.rpow_zero, glclamp]
  norm_num

/-- C3 witness: at `obs = sun = (0°, 0°)` (altitude `90°`), with
`twilightSteps = 1` and `twilightAttenuation = 0.5`, the brightness is `1`. -/
theorem illuminate_full_day_above_twilight_witness :
    (1 : ℝ) ≤ 1 ∧ -0.8333 ≤ solarAltitude (0, 0) (0, 0) ∧
      illuminate (0, 0) (0, 0) 1 0.5 = 1 :=
  ⟨le_refl 1, by rw [solarAltitude_zenith]; norm_num,
    illuminate_full_day_above_twilight (0, 0) (0, 0) 1 0.5 (le_refl 1)
      (by rw [solarAltitude_zenith]; norm_num)⟩

/-! ## C6 — zero attenuation gives full daylight everywhere -/

/-- C6: with `twilightSteps = 0` and `twilightAttenuation = 0` the shader
returns brightness exactly `1` for every observer and subsolar point
(`pow(1, x) = 1` for every exponent). -/
theorem illuminate_zero_attenuation (obs sun : ℝ × ℝ) :
    illuminate obs sun 0 0 = 1 := by
  have hb : glclamp (1 - 0) 0 1 = 1 := by simp [glclamp]
  simp only [illuminate, if_neg (lt_irrefl (0 : ℝ)), hb, Real.one_rpow, glclamp]
  norm_num

/-! ## C7 — negative step counts behave like continuous mode -/

/-- C7: for every negative `twilightSteps` value `s`, the shader computes
exactly the same brightness as with `twilightSteps = 0`: the quantization
branch is entered only when `twilightSteps > 0`. -/
theorem illuminate_negative_steps (obs sun : ℝ × ℝ) (att s : ℝ) (hs : s < 0) :
    illuminate obs sun s att = illuminate obs sun 0 att := by
  simp only [illuminate, if_neg (not_lt.mpr hs.le), if_neg (lt_irrefl (0 : ℝ))]

/-- C7 witness: `s = -1` agrees with `s = 0` at a concrete input. -/
theorem illuminate_negative_steps_witness :
    (-1 : ℝ) < 0 ∧ illuminate (0, 0) (0, 0) (-1) 0.5 = illuminate (0, 0) (0, 0) 0 0.5 :=
  ⟨neg_one_lt_zero, illuminate_negative_steps (0, 0) (0, 0) 0.5 (-1) neg_one_lt_zero⟩

/-! ## C5 — monotonicity in continuous mode -/

/-- C5 counterexample: at `twilightAttenuation = 1` (a fixed attenuation
parameter) monotonicity fails in the real-number model: lowering the
altitude from `90°` (zenith) to `0°` (horizon) *raises* the brightness
from `0` to `1`, because the base `clamp(1 - att, 0, 1)` is `0` and
`0 ^ 0 = 1` while `0 ^ 15 = 0`. -/
theorem illuminate_not_monotone_at_full_attenuation :
    solarAltitude (0, 0) (90, 0) < solarAltitude (0, 0) (0, 0) ∧
      illuminate (0, 0) (0, 0) 0 1 < illuminate (0, 0) (90, 0) 0 1 := by
  have hb : glclamp (1 - 1) 0 1 = 0 := by simp [glclamp]
  constructor
  · rw [solarAltitude_zenith, solarAltitude_horizon]; norm_num
  · have h1 : illuminate (0, 0) (0, 0) 0 1 = 0 := by
      simp only [illuminate, if_neg (lt_irrefl (0 : ℝ)), solarAltitude_zenith, hb]
      rw [Real.zero_rpow (by norm_num : (-(90 : ℝ) / 6) ≠ 0)]
      simp [glclamp]
    have h2 : illuminate (0, 0) (90, 0) 0 1 = 1 := by
      simp only [illuminate, if_neg (lt_irrefl (0 : ℝ)), solarAltitude_horizon, hb]
      norm_num [glclamp, Real.rpow_zero]
    rw [h1, h2]; norm_num

/-- C5 (amended): in continuous mode (`twilightSteps = 0`), for a fixed
attenuation **less than 1** (so the base `clamp(1 - att, 0, 1)` is
positive), the brightness is monotonically non-increasing as the solar
altitude at the observer decreases.  (At `att ≥ 1` the base is `0` and the
GLSL `pow` is evaluated at an undefined point `pow(0, e ≤ 0)`; in the
real-number model with `0 ^ 0 = 1` monotonicity fails there, see the
counterexample.) -/
theorem illuminate_mono_of_att_lt_one (obs1 obs2 sun : ℝ × ℝ) (att : ℝ)
    (hatt : att < 1) (h : solarAltitude obs1 sun ≤ solarAltitude obs2 sun) :
    illuminate obs1 sun 0 att ≤ illuminate obs2 sun 0 att := by
  simp only [illuminate, if_neg (lt_irrefl (0 : ℝ))]
  have hb0 : 0 < glclamp (1 - att) 0 1 :=
    lt_min (lt_of_lt_of_le (by linarith) (le_max_left _ _)) one_pos
  have hb1 : glclamp (1 - att) 0 1 ≤ 1 := min_le_right _ _
  have hexp : -solarAltitude obs2 sun / 6 ≤ -solarAltitude obs1 sun / 6 := by linarith
  have hkey := Real.rpow_le_rpow_of_exponent_ge hb0 hb1 hexp
  exact min_le_min (max_le_max hkey (le_refl 0)) (le_refl 1)

/-- C5 witness: concrete instance of the amended monotonicity claim. -/
theorem illuminate_mono_of_att_lt_one_witness :
    (0 : ℝ) < 1 ∧ solarAltitude (0, 0) (0, 0) ≤ solarAltitude (0, 0) (0, 0) ∧
      illuminate (0, 0) (0, 0) 0 0 ≤ illuminate (0, 0) (0, 0) 0 0 :=
  ⟨zero_lt_one, le_refl _,
    illuminate_mono_of_att_lt_one (0, 0) (0, 0) (0, 0) 0 zero_lt_one (le_refl _)⟩

/-! ## C4 — cache hit leaves the geometry untouched -/

/-- C4: if the candidate geometry signature for the current projection
mode and viewport bounds equals the cached signature, `#updateModel`
returns without rebuilding: buffers, index count and signature are all
left unchanged. -/
theorem updateModel_cache_hit (projectionName : Option String) (w e : ℝ)
    (st : LayerState)
    (h : some (candidateSignature projectionName w e) = st.modelSignature) :
    updateModel projectionName w e st = st := by
  simp only [updateModel, if_pos h]

/-- C4 witness: a GLOBE-mode update against a cache already holding the
`"globe"` signature returns the state unchanged. -/
theorem updateModel_cache_hit_witness :
    some (candidateSignature (some "globe") 0 0) =
        (⟨some "globe", [], [], none⟩ : LayerState).modelSignature ∧
      updateModel (some "globe") 0 0 ⟨some "globe", [], [], none⟩ =
        ⟨some "globe", [], [], none⟩ :=
  ⟨by simp [candidateSignature],
    updateModel_cache_hit (some "globe") 0 0 ⟨some "globe", [], [], none⟩
      (by simp [candidateSignature])⟩

/-! ## C8 — globe/flat signatures are disjoint and the cache stays consistent -/

/-- C8: (1) the GLOBE signature `"globe"` is distinct from every FLAT
signature `"xmin:xmax"`; (2) a GLOBE update against a cache holding any
FLAT signature always rebuilds, stores `"globe"` and the globe mesh
(a stale FLAT signature is never accepted for GLOBE geometry);
(3) symmetrically a FLAT update against a `"globe"` cache always
rebuilds and stores the flat quad; (4) the two meshes have different
buffer contents; (5) every update preserves the invariant that the
stored signature matches the stored buffers. -/
theorem updateModel_globe_flat_separation :
    (∀ a b : ℤ, toString a ++ ":" ++ toString b ≠ "globe") ∧
    (∀ w e : ℝ, ∀ st : LayerState,
      (∃ a b : ℤ, st.modelSignature = some (toString a ++ ":" ++ toString b)) →
        updateModel (some "globe") w e st ≠ st ∧
        (updateModel (some "globe") w e st).modelSignature = some "globe" ∧
        (updateModel (some "globe") w e st).vboData = globeTileMesh.vertices) ∧
    (∀ w e : ℝ, ∀ st : LayerState, st.modelSignature = some "globe" →
        updateModel none w e st ≠ st ∧
        (updateModel none w e st).vboData =
          (flatQuadMesh ⌊mercatorX w⌋ ⌈mercatorX e⌉).vertices) ∧
    (∀ a b : ℤ, globeTileMesh.vertices ≠ (flatQuadMesh a b).vertices) ∧
    (∀ projectionName : Option String, ∀ w e : ℝ, ∀ st : LayerState,
      SigMatchesBuffers st → SigMatchesBuffers (updateModel projectionName w e st)) := by
  have hglobecand : ∀ w e : ℝ, candidateSignature (some "globe") w e = "globe" := by
    intro w e; simp [candidateSignature]
  have hflatcand : ∀ w e : ℝ, candidateSignature none w e =
      toString ⌊mercatorX w⌋ ++ ":" ++ toString ⌈mercatorX e⌉ := by
    intro w e; simp [candidateSignature]
  refine ⟨fun a b => append_colon_ne_globe (toString a) (toString b), ?_, ?_, ?_, ?_⟩
  · rintro w e st ⟨a, b, hst⟩
    have hne : ¬ some (candidateSignature (some "globe") w e) = st.modelSignature := by
      rw [hglobecand, hst]
      intro h
      exact append_colon_ne_globe (toString a) (toString b) (Option.some.inj h).symm
    have hupd : updateModel (some "globe") w e st =
        ⟨some (candidateSignature (some "globe") w e), globeTileMesh.vertices,
          globeTileMesh.indices, some globeTileMesh.indices.length⟩ := by
      simp [updateModel, hne]
    refine ⟨?_, by rw [hupd, hglobecand], by rw [hupd]⟩
    intro h
    rw [hupd] at h
    have := congrArg LayerState.modelSignature h
    simp only [hglobecand, hst] at this
    exact append_colon_ne_globe (toString a) (toString b) (Option.some.inj this).symm
  · intro w e st hst
    have hne : ¬ some (candidateSignature none w e) = st.modelSignature := by
      rw [hflatcand, hst]
      intro h
      exact append_colon_ne_globe (toString ⌊mercatorX w⌋) (toString ⌈mercatorX e⌉)
        (Option.some.inj h)
    have hupd : updateModel none w e st =
        ⟨some (candidateSignature none w e),
          (flatQuadMesh ⌊mercatorX w⌋ ⌈mercatorX e⌉).vertices,
          (flatQuadMesh ⌊mercatorX w⌋ ⌈mercatorX e⌉).indices,
          some (flatQuadMesh ⌊mercatorX w⌋ ⌈mercatorX e⌉).indices.length⟩ := by
      simp [updateModel, hne]
    refine ⟨?_, by rw [hupd]⟩
    intro h
    rw [hupd] at h
    have := congrArg LayerState.modelSignature h
    simp only [hflatcand, hst] at this
    exact append_colon_ne_globe (toString ⌊mercatorX w⌋) (toString ⌈mercatorX e⌉)
      (Option.some.inj this)
  · intro a b h
    have hlen := congrArg List.length h
    rw [show (flatQuadMesh a b).vertices.length = 6 from rfl] at hlen
    rw [show globeTileMesh.vertices.length = 101 * 103 by
      simp [globeTileMesh]] at hlen
    norm_num at hlen
  · intro projectionName w e st hst
    by_cases hhit : some (candidateSignature projectionName w e) = st.modelSignature
    · simp only [updateModel, if_pos hhit]; exact hst
    · intro s hs
      have hs' : s = candidateSignature projectionName w e := by
        simp [updateModel, hhit] at hs
        exact hs.symm
      by_cases hg : projectionName = some "globe"
      · left
        subst hg
        refine ⟨by rw [hs', hglobecand], ?_, ?_, ?_⟩ <;> simp [updateModel, hhit]
      · right
        refine ⟨⌊mercatorX w⌋, ⌈mercatorX e⌉, ?_, ?_, ?_, ?_⟩
        · rw [hs', candidateSignature, if_neg hg]
        all_goals simp [updateModel, hhit, hg]

/-- C8 witness: concrete instances of every conjunct — a FLAT cache hit by
a GLOBE update, a GLOBE cache hit by a FLAT update, distinct mesh
contents, and invariant preservation from an empty cache. -/
theorem updateModel_globe_flat_separation_witness :
    (toString (0 : ℤ) ++ ":" ++ toString (1 : ℤ) ≠ "globe") ∧
      updateModel (some "globe") 0 0
          ⟨some (toString (0 : ℤ) ++ ":" ++ toString (1 : ℤ)), [], [], none⟩ ≠
        ⟨some (toString (0 : ℤ) ++ ":" ++ toString (1 : ℤ)), [], [], none⟩ ∧
      updateModel none 0 0 ⟨some "globe", [], [], none⟩ ≠ ⟨some "globe", [], [], none⟩ ∧
      globeTileMesh.vertices ≠ (flatQuadMesh 0 1).vertices ∧
      SigMatchesBuffers (updateModel (some "globe") 0 0 ⟨none, [], [], none⟩) :=
  ⟨updateModel_globe_flat_separation.1 0 1,
    (updateModel_globe_flat_separation.2.1 0 0 _ ⟨0, 1, rfl⟩).1,
    (updateModel_globe_flat_separation.2.2.1 0 0 _ rfl).1,
    updateModel_globe_flat_separation.2.2.2.1 0 1,
    updateModel_globe_flat_separation.2.2.2.2 (some "globe") 0 0 _
      (fun _ h => Option.noConfusion h)⟩
